import Mathlib

/-!
Verification of the ThermaGraph interactive fluid-diagram plotter.

The development shallowly embeds the two source files of the repository,
`Frame.py` (the GUI window `MainWindow`) and `Plotter.py` (the plotting
adapter `FluidDiagramPlotter`).  Numeric values are modelled as exact
rationals (`ℚ`); Python exceptions are modelled as `Option`/`Except`
results; Python dictionaries (which preserve insertion order) are
modelled as association lists.  External collaborators (the CoolProp
equation-of-state solver, the fluprodia isoline renderer and the Qt/
matplotlib drawing surfaces) are abstracted away: only the first-party
logic is embedded.
-/

namespace ThermaGraph

/-- A stored state-point tuple as produced by
`FluidDiagramPlotter.format_converted_state`: a pair of rationals. -/
abbrev PState := ℚ × ℚ

namespace Frame

/-- `MainWindow.convert_temperature` (Frame.py lines 431-452): convert a
temperature value between the units `K`, `°C` and `°F`; equal units and
unrecognized units return the value unchanged. -/
def convert_temperature (value : ℚ) (old_unit new_unit : String) : ℚ :=
  if old_unit = new_unit then value
  else if old_unit = "K" then
    if new_unit = "°C" then value - 273.15
    else if new_unit = "°F" then (value - 273.15) * 9 / 5 + 32
    else value
  else if old_unit = "°C" then
    if new_unit = "K" then value + 273.15
    else if new_unit = "°F" then value * 9 / 5 + 32
    else value
  else if old_unit = "°F" then
    if new_unit = "K" then (value - 32) * 5 / 9 + 273.15
    else if new_unit = "°C" then (value - 32) * 5 / 9
    else value
  else value

/-- The pressure conversion-factor dictionary of
`MainWindow.convert_pressure` (Frame.py lines 458-460). -/
def pressure_conversion_factors : List (String × ℚ) :=
  [("Pa", 1), ("hPa", 100), ("kPa", 1000), ("mbar", 100),
   ("bar", 100000), ("psi", 6894.76), ("MPa", 1e6)]

/-- `MainWindow.convert_pressure` (Frame.py lines 454-461):
`value * factors[old_unit] / factors[new_unit]`; a unit absent from the
dictionary raises `KeyError`, modelled as `none`. -/
def convert_pressure (value : ℚ) (old_unit new_unit : String) : Option ℚ := do
  let a ← pressure_conversion_factors.lookup old_unit
  let b ← pressure_conversion_factors.lookup new_unit
  pure (value * a / b)

/-- The entropy conversion-factor dictionary of
`MainWindow.convert_entropy` (Frame.py lines 467-469). -/
def entropy_conversion_factors : List (String × ℚ) :=
  [("J/kgK", 1), ("kJ/kgK", 1000), ("MJ/kgK", 1e6)]

/-- `MainWindow.convert_entropy` (Frame.py lines 463-470). -/
def convert_entropy (value : ℚ) (old_unit new_unit : String) : Option ℚ := do
  let a ← entropy_conversion_factors.lookup old_unit
  let b ← entropy_conversion_factors.lookup new_unit
  pure (value * a / b)

/-- The enthalpy conversion-factor dictionary of
`MainWindow.convert_enthalpy` (Frame.py lines 476-478). -/
def enthalpy_conversion_factors : List (String × ℚ) :=
  [("J/kg", 1), ("kJ/kg", 1000), ("MJ/kg", 1e6)]

/-- `MainWindow.convert_enthalpy` (Frame.py lines 472-479). -/
def convert_enthalpy (value : ℚ) (old_unit new_unit : String) : Option ℚ := do
  let a ← enthalpy_conversion_factors.lookup old_unit
  let b ← enthalpy_conversion_factors.lookup new_unit
  pure (value * a / b)

/-- The specific-volume conversion-factor dictionary of
`MainWindow.convert_volume` (Frame.py lines 485-487). -/
def volume_conversion_factors : List (String × ℚ) :=
  [("m^3/kg", 1), ("l/kg", 0.001)]

/-- `MainWindow.convert_volume` (Frame.py lines 481-488). -/
def convert_volume (value : ℚ) (old_unit new_unit : String) : Option ℚ := do
  let a ← volume_conversion_factors.lookup old_unit
  let b ← volume_conversion_factors.lookup new_unit
  pure (value * a / b)

/-- Vapor-fraction unit change.  `MainWindow` defines no conversion
function for the vapor-fraction quantity: `connect_signals`
(Frame.py lines 323-327) wires unit-change conversion only for the
`p`, `T`, `s`, `h` and `v` combo boxes, and `convert_units`
(Frame.py lines 329-340) converts no `Q` field, so switching between
the `Q` units `-` and `%` leaves every value unchanged.  The
pass-through is therefore the identity. -/
def convert_vapor_fraction (value : ℚ) (_old_unit _new_unit : String) : ℚ :=
  value

/-- The supported temperature units (Frame.py line 56). -/
def temperature_units : List String := ["°C", "K", "°F"]

/-- The supported pressure units (Frame.py line 55). -/
def pressure_units : List String :=
  ["bar", "hPa", "mbar", "psi", "kPa", "Pa", "MPa"]

/-- The supported entropy units (Frame.py line 57). -/
def entropy_units : List String := ["J/kgK", "kJ/kgK", "MJ/kgK"]

/-- The supported enthalpy units (Frame.py line 58). -/
def enthalpy_units : List String := ["kJ/kg", "J/kg", "MJ/kg"]

/-- The supported specific-volume units (Frame.py line 59). -/
def volume_units : List String := ["m^3/kg", "l/kg"]

/-- The supported vapor-fraction units (Frame.py line 60). -/
def vapor_fraction_units : List String := ["-", "%"]

/-- A unit-system dictionary with the six fixed keys `p`, `T`, `s`, `h`,
`v`, `Q` (Frame.py `get_unit_system`, lines 612-623).  The value type is
a parameter because `get_axis_units` only reads the dictionary. -/
structure UnitSystem (α : Type) where
  p : α
  T : α
  s : α
  h : α
  v : α
  Q : α
  deriving DecidableEq

/-- `MainWindow.get_axis_units` (Frame.py lines 392-406): the pair of
(x-axis, y-axis) units selected by the diagram type; `(None, None)` for
any other diagram-type string. -/
def get_axis_units {α : Type} (diagram_type : String) (units : UnitSystem α) :
    Option α × Option α :=
  if diagram_type = "Ts" then (some units.s, some units.T)
  else if diagram_type = "hs" then (some units.s, some units.h)
  else if diagram_type = "logph" then (some units.h, some units.p)
  else if diagram_type = "Th" then (some units.h, some units.T)
  else if diagram_type = "plogv" then (some units.v, some units.p)
  else (none, none)

/-- The five diagram types offered by the diagram-type combo box
(Frame.py line 62). -/
def diagram_types : List String := ["Ts", "hs", "logph", "Th", "plogv"]

/-- Raw fluid-states JSON content: point name → list of `[p, h]`
pairs. -/
abbrev FluidStatesJson := List (String × List (ℚ × ℚ))

/-- Raw connections JSON content: `[start, end, line_type]` triples. -/
abbrev ConnectionsJson := List (String × String × String)

/-- An exception escaping the body of `update_plot` after the loading
step: Python distinguishes `ValueError` (malformed numeric fields,
unsupported diagram type) from every other exception
(Frame.py lines 590-593). -/
inductive PlotFailure where
  | valueError (msg : String)
  | otherError (msg : String)
  deriving DecidableEq

/-- The external world of one `update_plot` run: the outcome of
reading each of the two JSON files (an `Except.error` covers both the
empty-path `ValueError`s raised in `load_json_files` and file/parse
errors), and the outcome of the plotting body (field parsing, plotter
construction and `create_plot`) as a function of the data it is run
on. -/
structure Env where
  fluid_states_load : Except String FluidStatesJson
  connections_load : Except String ConnectionsJson
  run_plot : FluidStatesJson → ConnectionsJson → Except PlotFailure Unit

/-- The observable window state: the stored `self.fluid_states` and
`self.connections` attributes (absent before any successful load), the
update button's style sheet, and the error dialogs shown so far. -/
structure GuiState where
  fluid_states : Option FluidStatesJson
  connections : Option ConnectionsJson
  update_button_style : String
  dialogs : List String
  deriving DecidableEq

/-- `MainWindow.show_error_message` (Frame.py lines 39-47): pop a modal
dialog with the message. -/
def show_error_message (msg : String) (st : GuiState) : GuiState :=
  { st with dialogs := st.dialogs ++ [msg] }

/-- `MainWindow.load_json_files` (Frame.py lines 595-610): load the
fluid-states file, then the connections file, storing each on success;
any exception is caught HERE, shown as an
`"Error loading JSON files: ..."` dialog, and NOT re-raised, so the
previously stored attributes survive. -/
def load_json_files (env : Env) (st : GuiState) : GuiState :=
  match env.fluid_states_load with
  | .error e => show_error_message ("Error loading JSON files: " ++ e) st
  | .ok fs =>
    let st1 := { st with fluid_states := some fs }
    match env.connections_load with
    | .error e => show_error_message ("Error loading JSON files: " ++ e) st1
    | .ok cs => { st1 with connections := some cs }

/-- The red style sheet applied by `mark_update_needed`
(Frame.py line 555). -/
def red_style : String := "background-color: red; color: white;"

/-- `MainWindow.mark_update_needed` (Frame.py lines 551-557): paint
the update button red. -/
def mark_update_needed (st : GuiState) : GuiState :=
  { st with update_button_style := red_style }

/-- `MainWindow.update_plot` (Frame.py lines 565-593): call
`load_json_files`, then run the plotting body on the stored
attributes; on success clear the button style sheet, on a raised
exception show a dialog and leave the style sheet as it is.  Reading a
never-stored attribute raises `AttributeError`, caught by the generic
handler. -/
def update_plot (env : Env) (st : GuiState) : GuiState :=
  let st1 := load_json_files env st
  match st1.fluid_states, st1.connections with
  | some fs, some cs =>
    (match env.run_plot fs cs with
     | .ok _ => { st1 with update_button_style := "" }
     | .error (.valueError m) =>
       show_error_message ("Error: " ++ m) st1
     | .error (.otherError m) =>
       show_error_message ("Unexpected Error: " ++ m) st1)
  | _, _ =>
    show_error_message
      "Unexpected Error: missing fluid states or connections attribute" st1

end Frame

namespace Plotter

/-- `FluidDiagramPlotter.format_converted_state` (Plotter.py lines
329-352): select the stored two-tuple for a diagram type from the
converted quantities `(Ta, Sa, va, pa, ha)`; any other diagram-type
string raises `ValueError` naming the type, modelled as
`Except.error`. -/
def format_converted_state (diagram_type : String)
    (Ta Sa va pa ha : ℚ) : Except String (ℚ × ℚ) :=
  if diagram_type = "Ts" then .ok (Ta, Sa)
  else if diagram_type = "hs" then .ok (ha, Sa)
  else if diagram_type = "logph" then .ok (pa, ha)
  else if diagram_type = "Th" then .ok (Ta, ha)
  else if diagram_type = "plogv" then .ok (va, pa)
  else .error ("Unsupported diagram type: " ++ diagram_type)

/-- The (x, y) position at which `plot_fluid_states` (Plotter.py lines
107-135) draws a stored state tuple: each stored tuple is unpacked as
`(p, h)` and drawn with `self.ax.plot(h, p, ...)` (line 125), i.e. the
second component on the x-axis and the first on the y-axis. -/
def plotted_xy (diagram_type : String) (Ta Sa va pa ha : ℚ) :
    Except String (ℚ × ℚ) :=
  (format_converted_state diagram_type Ta Sa va pa ha).map
    (fun st => (st.2, st.1))

/-- A matplotlib line style: color, dash pattern and width, as in
`connection_line_styles` (Plotter.py lines 151-160). -/
structure LineStyle where
  color : String
  linestyle : String
  linewidth : ℚ
  deriving DecidableEq

/-- The `'non-isentropic'` style (Plotter.py line 157). -/
def non_isentropic_style : LineStyle := ⟨"gray", "-", 2⟩

/-- The `'isentropic'` style (Plotter.py line 158). -/
def isentropic_style : LineStyle := ⟨"green", "--", 2⟩

/-- The `'default'` style (Plotter.py line 159). -/
def default_style : LineStyle := ⟨"gray", ":", 2⟩

/-- `FluidDiagramPlotter.connection_line_styles` (Plotter.py lines
151-160): the dictionary of line styles keyed by connection type. -/
def connection_line_styles : List (String × LineStyle) :=
  [("non-isentropic", non_isentropic_style),
   ("isentropic", isentropic_style),
   ("default", default_style)]

/-- The style lookup of `plot_connections` (Plotter.py line 148):
`line_styles.get(line_type, line_styles['default'])`; the
`'default'` dictionary entry is `default_style`. -/
def line_style_for (line_type : String) : LineStyle :=
  (connection_line_styles.lookup line_type).getD default_style

/-- Python substring containment on character lists: `needle in hay`
holds when `needle` occurs contiguously in `hay` (the empty needle is
contained in everything). -/
def leads_with : List Char → List Char → Bool
  | [], _ => true
  | _ :: _, [] => false
  | a :: as, b :: bs => a == b && leads_with as bs

/-- Python's `needle in hay` substring test, used by the endpoint
resolution of `plot_connections` (Plotter.py lines 146-147). -/
def has_sub (needle : List Char) : List Char → Bool
  | [] => leads_with needle []
  | c :: t => leads_with needle (c :: t) || has_sub needle t

/-- The endpoint resolution of `plot_connections` (Plotter.py lines
146-147): `next(state for point, states in states.items() for state in
states if name in point)` — the first sample of the first point (in
mapping iteration order) whose name contains `name` as a substring and
whose sample list is non-empty; an exhausted generator raises
`StopIteration`, modelled as `none`. -/
def resolve_endpoint (name : String) :
    List (String × List PState) → Option PState
  | [] => none
  | (point, ss) :: rest =>
    if has_sub name.data point.data then
      match ss with
      | [] => resolve_endpoint name rest
      | s :: _ => some s
    else resolve_endpoint name rest

/-- `FluidDiagramPlotter.plot_connections` (Plotter.py lines 137-149):
resolve both endpoints of each connection and draw a line segment
between them in the style selected by the connection's line type.  The
result collects the drawn `(start_state, end_state, style)` segments;
a `StopIteration` from an unresolvable endpoint is `none`. -/
def plot_connections (states : List (String × List PState)) :
    List (String × String × String) →
    Option (List (PState × PState × LineStyle))
  | [] => some []
  | (start, endp, line_type) :: rest => do
    let start_state ← resolve_endpoint start states
    let end_state ← resolve_endpoint endp states
    let tail ← plot_connections states rest
    pure ((start_state, end_state, line_style_for line_type) :: tail)

/-- `FluidDiagramPlotter.add_color_bar` (Plotter.py lines 196-206):
`num_states = len(next(iter(self.states.values())))` — the sample count
of the first point of the mapping (`StopIteration`, modelled as `none`,
for an empty mapping); the color bar gets ticks `range(num_states)`
labeled `str(i + 1)`. -/
def add_color_bar (states : List (String × List PState)) :
    Option (List ℕ × List String) :=
  match states with
  | [] => none
  | (_, ss) :: _ =>
    some (List.range ss.length,
      (List.range ss.length).map fun i => toString (i + 1))

/-- `FluidDiagramPlotter.create_plot` (Plotter.py lines 162-177),
restricted to its first-party logic: after the external isoline drawing
it plots the fluid states (which plots the connections when the
connection list is truthy, i.e. non-empty) and then adds the color bar.
A `StopIteration` from either step propagates, modelled as `none`. -/
def create_plot (states : List (String × List PState))
    (connections : List (String × String × String)) :
    Option (List (PState × PState × LineStyle) × (List ℕ × List String)) := do
  let segments ← if connections = [] then some []
    else plot_connections states connections
  let color_bar ← add_color_bar states
  pure (segments, color_bar)

end Plotter

/-- A unit-system dictionary filled with pairwise-distinct rational
markers, to name the converted quantities positionally:
`p = 4 = pa`, `T = 1 = Ta`, `s = 2 = Sa`, `h = 5 = ha`, `v = 3 = va`. -/
def marker_units : Frame.UnitSystem ℚ :=
  { p := 4, T := 1, s := 2, h := 5, v := 3, Q := 0 }

/-- C1 (code bug): with the five converted quantities marked
`Ta = 1, Sa = 2, va = 3, pa = 4, ha = 5`, the (x, y) position at which
`plot_fluid_states` draws the tuple stored by `format_converted_state`
agrees with the axis pair of `get_axis_units` for `Ts`, `hs`, `logph`
and `Th` — but for `plogv` the stored tuple `(va, pa)` is drawn at
`x = pa, y = va`, while `get_axis_units` (and `update_axis_limits`)
put the specific volume on the x-axis and the pressure on the y-axis.
The five types therefore do not share one coordinate convention. -/
theorem plogv_state_coordinates_swapped :
    (Plotter.plotted_xy "Ts" 1 2 3 4 5 = .ok (2, 1) ∧
      Frame.get_axis_units "Ts" marker_units = (some 2, some 1)) ∧
    (Plotter.plotted_xy "hs" 1 2 3 4 5 = .ok (2, 5) ∧
      Frame.get_axis_units "hs" marker_units = (some 2, some 5)) ∧
    (Plotter.plotted_xy "logph" 1 2 3 4 5 = .ok (5, 4) ∧
      Frame.get_axis_units "logph" marker_units = (some 5, some 4)) ∧
    (Plotter.plotted_xy "Th" 1 2 3 4 5 = .ok (5, 1) ∧
      Frame.get_axis_units "Th" marker_units = (some 5, some 1)) ∧
    (Plotter.plotted_xy "plogv" 1 2 3 4 5 = .ok (4, 3) ∧
      Frame.get_axis_units "plogv" marker_units = (some 3, some 4) ∧
      ((4 : ℚ), (3 : ℚ)) ≠ ((3 : ℚ), (4 : ℚ))) :=
  ⟨⟨rfl, rfl⟩, ⟨rfl, rfl⟩, ⟨rfl, rfl⟩, ⟨rfl, rfl⟩, rfl, rfl, by decide⟩

/-- C4: `format_converted_state` raises `ValueError` naming the
unsupported diagram type for every string outside the five supported
types, and returns a tuple (does not raise) for each of the five. -/
theorem format_converted_state_supported_types :
    ∀ (d : String) (Ta Sa va pa ha : ℚ),
      (d ∉ Frame.diagram_types →
        Plotter.format_converted_state d Ta Sa va pa ha =
          .error ("Unsupported diagram type: " ++ d)) ∧
      (d ∈ Frame.diagram_types →
        ∃ xy, Plotter.format_converted_state d Ta Sa va pa ha = .ok xy) := by
  intro d Ta Sa va pa ha
  constructor
  · intro hd
    simp only [Frame.diagram_types, List.mem_cons, List.not_mem_nil,
      or_false, not_or] at hd
    obtain ⟨h1, h2, h3, h4, h5⟩ := hd
    simp [Plotter.format_converted_state, h1, h2, h3, h4, h5]
  · intro hd
    fin_cases hd <;> exact ⟨_, rfl⟩

/-- Witness for C4: the unsupported type `pT` errors with the type in
the message; the supported type `Ts` yields a tuple. -/
theorem format_converted_state_supported_types_witness :
    (Plotter.format_converted_state "pT" 1 2 3 4 5 =
      .error ("Unsupported diagram type: " ++ "pT")) ∧
    (∃ xy, Plotter.format_converted_state "Ts" 1 2 3 4 5 = .ok xy) :=
  ⟨(format_converted_state_supported_types "pT" 1 2 3 4 5).1 (by decide),
   (format_converted_state_supported_types "Ts" 1 2 3 4 5).2 (by decide)⟩

/-- C8: for every unit-system dictionary, the diagram type determines
the axis-unit pair exactly as the claim tabulates, with `(None, None)`
for every diagram-type string outside the five. -/
theorem get_axis_units_by_diagram_type :
    ∀ {α : Type} (u : Frame.UnitSystem α),
      Frame.get_axis_units "Ts" u = (some u.s, some u.T) ∧
      Frame.get_axis_units "hs" u = (some u.s, some u.h) ∧
      Frame.get_axis_units "logph" u = (some u.h, some u.p) ∧
      Frame.get_axis_units "Th" u = (some u.h, some u.T) ∧
      Frame.get_axis_units "plogv" u = (some u.v, some u.p) ∧
      ∀ d : String, d ∉ Frame.diagram_types →
        Frame.get_axis_units d u = (none, none) := by
  intro α u
  refine ⟨rfl, rfl, rfl, rfl, rfl, ?_⟩
  intro d hd
  simp only [Frame.diagram_types, List.mem_cons, List.not_mem_nil,
    or_false, not_or] at hd
  obtain ⟨h1, h2, h3, h4, h5⟩ := hd
  simp [Frame.get_axis_units, h1, h2, h3, h4, h5]

/-- Witness for C8: the axis-unit pairs of a concrete unit system. -/
theorem get_axis_units_by_diagram_type_witness :
    Frame.get_axis_units "Ts"
      (⟨"bar", "K", "J/kgK", "J/kg", "m^3/kg", "-"⟩ : Frame.UnitSystem String) =
      (some "J/kgK", some "K") ∧
    Frame.get_axis_units "pT"
      (⟨"bar", "K", "J/kgK", "J/kg", "m^3/kg", "-"⟩ : Frame.UnitSystem String) =
      (none, none) :=
  ⟨(get_axis_units_by_diagram_type _).1,
   (get_axis_units_by_diagram_type _).2.2.2.2.2 "pT" (by decide)⟩

/-- C6: the style drawn for a connection is a three-way lookup on its
line type — the isentropic style for `'isentropic'`, the non-isentropic
style for `'non-isentropic'`, the default style otherwise — and
`plot_connections` attaches exactly that style to the segment it
draws for a connection. -/
theorem connection_line_style_three_way :
    (∀ line_type : String, Plotter.line_style_for line_type =
      if line_type = "isentropic" then Plotter.isentropic_style
      else if line_type = "non-isentropic" then Plotter.non_isentropic_style
      else Plotter.default_style) ∧
    (∀ (states : List (String × List PState)) (s e line_type : String)
        (a b : PState),
      Plotter.resolve_endpoint s states = some a →
      Plotter.resolve_endpoint e states = some b →
      Plotter.plot_connections states [(s, e, line_type)] =
        some [(a, b, Plotter.line_style_for line_type)]) := by
  constructor
  · intro lt
    by_cases h1 : lt = "isentropic"
    · subst h1; rfl
    · by_cases h2 : lt = "non-isentropic"
      · subst h2; rfl
      · rw [if_neg h1, if_neg h2]
        by_cases h3 : lt = "default"
        · subst h3; rfl
        · have b1 : (lt == "non-isentropic") = false := by simp [h2]
          have b2 : (lt == "isentropic") = false := by simp [h1]
          have b3 : (lt == "default") = false := by simp [h3]
          simp [Plotter.line_style_for, Plotter.connection_line_styles,
            List.lookup, b1, b2, b3]
  · intro states s e lt a b ha hb
    simp [Plotter.plot_connections, ha, hb]

/-- Witness for C6: a singleton connection resolved by substring match
is drawn with the isentropic style. -/
theorem connection_line_style_three_way_witness :
    Plotter.plot_connections [("pump", [(1, 2)])] [("pum", "ump", "isentropic")] =
      some [((1, 2), (1, 2), Plotter.line_style_for "isentropic")] :=
  connection_line_style_three_way.2 [("pump", [(1, 2)])] "pum" "ump"
    "isentropic" (1, 2) (1, 2) (by decide) (by decide)

/-- C5: for a non-empty states mapping in which every point has exactly
`N ≥ 1` samples, the color bar gets exactly `N` ticks, `0 .. N - 1`,
labeled `"1" .. "N"`. -/
theorem add_color_bar_tick_count
    (states : List (String × List PState)) (N : ℕ)
    (hne : states ≠ []) (_hN : 1 ≤ N)
    (hall : ∀ pt ∈ states, pt.2.length = N) :
    Plotter.add_color_bar states =
      some (List.range N, (List.range N).map fun i => toString (i + 1)) ∧
    (List.range N).length = N := by
  match states, hne with
  | (name, ss) :: rest, _ =>
    have hs : ss.length = N := hall (name, ss) (by simp)
    exact ⟨by simp [Plotter.add_color_bar, hs], List.length_range N⟩

/-- Witness for C5: two points with two samples each give two ticks. -/
theorem add_color_bar_tick_count_witness :
    Plotter.add_color_bar
      [("1", [(1, 100), (2, 200)]), ("2", [(3, 300), (4, 400)])] =
      some (List.range 2, (List.range 2).map fun i => toString (i + 1)) ∧
    (List.range 2).length = 2 :=
  add_color_bar_tick_count _ 2 (by decide) (by decide) (by decide)

/-- C10: `create_plot` yields no color bar for the empty states mapping
(`add_color_bar` raises `StopIteration` there), and for any non-empty
mapping the tick count is taken solely from the first point's sample
list, whatever the other points hold. -/
theorem create_plot_requires_nonempty_states :
    (∀ conns, Plotter.create_plot [] conns = none) ∧
    Plotter.add_color_bar ([] : List (String × List PState)) = none ∧
    (∀ (name : String) (ss : List PState) (rest : List (String × List PState)),
      Plotter.add_color_bar ((name, ss) :: rest) =
        some (List.range ss.length,
          (List.range ss.length).map fun i => toString (i + 1))) := by
  refine ⟨?_, rfl, fun name ss rest => rfl⟩
  intro conns
  cases conns with
  | nil => rfl
  | cons c cr =>
    obtain ⟨s, e, t⟩ := c
    simp [Plotter.create_plot, Plotter.plot_connections,
      Plotter.resolve_endpoint]

/-- An `update_plot` environment in which the fluid-states file fails
to load while the plotting body would succeed on whatever data it is
given. -/
def stale_data_env : Frame.Env :=
  { fluid_states_load := .error "No such file or directory: states.json",
    connections_load := .ok [],
    run_plot := fun _ _ => .ok () }

/-- A window that already holds previously loaded data (a successful
earlier load or browse) and whose update button was painted red by
`mark_update_needed`. -/
def stale_data_state : Frame.GuiState :=
  Frame.mark_update_needed
    { fluid_states := some [("1", [(1, 100)])], connections := some [],
      update_button_style := "", dialogs := [] }

/-- C7 (code bug): `load_json_files` swallows its exceptions, so when
the fluid-states file fails to load but a previous load left stored
data behind, `update_plot` shows the load-error dialog and then
re-plots the stale data; the plot succeeds and the red needs-update
styling is cleared even though an exception was raised during loading.
On a window with no previously stored data the same failure leaves the
red styling in place, as the claim expects. -/
theorem update_plot_clears_red_despite_load_failure :
    stale_data_state.update_button_style = Frame.red_style ∧
    (Frame.update_plot stale_data_env stale_data_state).dialogs =
      ["Error loading JSON files: No such file or directory: states.json"] ∧
    (Frame.update_plot stale_data_env stale_data_state).update_button_style
      = "" ∧
    (Frame.update_plot stale_data_env
        (Frame.mark_update_needed ⟨none, none, "", []⟩)).update_button_style
      = Frame.red_style :=
  ⟨rfl, rfl, rfl, rfl⟩

/-- C9 counterexample: the claim's biconditional ("StopIteration iff
some endpoint name is not contained in any point name") fails when a
matching point has an empty sample list: for the mapping
`{"A": []}` and the connection `("A", "A", _)`, the endpoint name `A`
is contained in the point name `A`, yet the generator is exhausted and
`plot_connections` raises `StopIteration`. -/
theorem plot_connections_raises_despite_contained_name :
    Plotter.has_sub "A".data "A".data = true ∧
    Plotter.plot_connections [("A", [])] [("A", "A", "isentropic")] = none :=
  ⟨rfl, rfl⟩

/-- C9 (amended): endpoint resolution is by substring containment, not
equality; the endpoint used is the first sample of the first point (in
mapping iteration order) whose name contains the endpoint name and
whose sample list is non-empty; `plot_connections` raises
`StopIteration` iff some connection has an endpoint name for which
every point of the mapping either has an empty sample list or does not
contain the name. -/
theorem plot_connections_resolution :
    (∀ (states : List (String × List PState)) (name : String),
      Plotter.resolve_endpoint name states = none ↔
        ∀ pt ∈ states, pt.2 = [] ∨
          Plotter.has_sub name.data pt.1.data = false) ∧
    (∀ (states : List (String × List PState))
        (conns : List (String × String × String)),
      Plotter.plot_connections states conns = none ↔
        ∃ c ∈ conns, Plotter.resolve_endpoint c.1 states = none ∨
          Plotter.resolve_endpoint c.2.1 states = none) ∧
    (∀ (pre rest : List (String × List PState)) (point : String)
        (s : PState) (tail : List PState) (name : String),
      (∀ pt ∈ pre, pt.2 = [] ∨
        Plotter.has_sub name.data pt.1.data = false) →
      Plotter.has_sub name.data point.data = true →
      Plotter.resolve_endpoint name (pre ++ (point, s :: tail) :: rest) =
        some s) := by
  have hres : ∀ (states : List (String × List PState)) (name : String),
      Plotter.resolve_endpoint name states = none ↔
        ∀ pt ∈ states, pt.2 = [] ∨
          Plotter.has_sub name.data pt.1.data = false := by
    intro states name
    induction states with
    | nil => simp [Plotter.resolve_endpoint]
    | cons head restl ih =>
      obtain ⟨point, ss⟩ := head
      by_cases h : Plotter.has_sub name.data point.data = true
      · cases ss with
        | nil => simp [Plotter.resolve_endpoint, h, ih]
        | cons s st => simp [Plotter.resolve_endpoint, h]
      · simp [Plotter.resolve_endpoint, h, ih,
          Bool.not_eq_true _ ▸ h]
  refine ⟨hres, ?_, ?_⟩
  · intro states conns
    induction conns with
    | nil => simp [Plotter.plot_connections]
    | cons c cr ih =>
      obtain ⟨s, e, t⟩ := c
      cases h1 : Plotter.resolve_endpoint s states with
      | none =>
        constructor
        · intro _
          exact ⟨(s, e, t), by simp, Or.inl h1⟩
        · intro _
          simp [Plotter.plot_connections, h1]
      | some a =>
        cases h2 : Plotter.resolve_endpoint e states with
        | none =>
          constructor
          · intro _
            exact ⟨(s, e, t), by simp, Or.inr h2⟩
          · intro _
            simp [Plotter.plot_connections, h1, h2]
        | some b =>
          constructor
          · intro hnone
            simp only [Plotter.plot_connections, h1, h2] at hnone
            cases h3 : Plotter.plot_connections states cr with
            | none =>
              obtain ⟨c, hc, hcc⟩ := ih.mp h3
              exact ⟨c, by simp [hc], hcc⟩
            | some l => simp [h3, bind] at hnone
          · intro hex
            obtain ⟨c, hc, hcc⟩ := hex
            rcases List.mem_cons.mp hc with hc | hc
            · subst hc
              rcases hcc with hcc | hcc
              · rw [h1] at hcc; cases hcc
              · rw [h2] at hcc; cases hcc
            · have h3 := ih.mpr ⟨c, hc, hcc⟩
              simp [Plotter.plot_connections, h1, h2, h3]
  · intro pre rest point s tail name
    induction pre with
    | nil =>
      intro _ hpoint
      simp [Plotter.resolve_endpoint, hpoint]
    | cons q qr ih =>
      intro hpre hpoint
      obtain ⟨qn, qs⟩ := q
      have hq := hpre (qn, qs) (by simp)
      rcases hq with hq | hq
      · simp only at hq
        subst hq
        by_cases hc : Plotter.has_sub name.data qn.data = true
        · simp only [List.cons_append, Plotter.resolve_endpoint, hc, if_true]
          exact ih (fun pt hpt => hpre pt (List.mem_cons_of_mem _ hpt)) hpoint
        · simp only [List.cons_append, Plotter.resolve_endpoint,
            Bool.not_eq_true _ ▸ hc, if_false]
          exact ih (fun pt hpt => hpre pt (List.mem_cons_of_mem _ hpt)) hpoint
      · simp only at hq
        simp only [List.cons_append, Plotter.resolve_endpoint, hq,
          Bool.false_eq_true, if_false]
        exact ih (fun pt hpt => hpre pt (List.mem_cons_of_mem _ hpt)) hpoint

/-- Witness for C9 (amended): resolution skips a containment-matching
point with an empty sample list and a non-matching point, then uses the
first sample of the first matching non-empty point. -/
theorem plot_connections_resolution_witness :
    Plotter.resolve_endpoint "A"
      ([("Ax", []), ("B", [(7, 8)])] ++ ("xAy", (1, 2) :: [(9, 9)]) :: []) =
      some (1, 2) :=
  plot_connections_resolution.2.2 [("Ax", []), ("B", [(7, 8)])] []
    "xAy" (1, 2) [(9, 9)] "A" (by decide) (by decide)

/-- C2: for every quantity kind among the six (pressure, temperature,
entropy, enthalpy, specific volume, vapor fraction) and every ordered
pair of its supported units, converting a value from the first unit to
the second and then back returns the original value.  Over the exact
rational embedding the round trip is exact. -/
theorem unit_conversions_round_trip :
    (∀ (v : ℚ) (old new : String),
      old ∈ Frame.pressure_units → new ∈ Frame.pressure_units →
      (Frame.convert_pressure v old new).bind
        (fun w => Frame.convert_pressure w new old) = some v) ∧
    (∀ (v : ℚ) (old new : String),
      old ∈ Frame.temperature_units → new ∈ Frame.temperature_units →
      Frame.convert_temperature (Frame.convert_temperature v old new) new old = v) ∧
    (∀ (v : ℚ) (old new : String),
      old ∈ Frame.entropy_units → new ∈ Frame.entropy_units →
      (Frame.convert_entropy v old new).bind
        (fun w => Frame.convert_entropy w new old) = some v) ∧
    (∀ (v : ℚ) (old new : String),
      old ∈ Frame.enthalpy_units → new ∈ Frame.enthalpy_units →
      (Frame.convert_enthalpy v old new).bind
        (fun w => Frame.convert_enthalpy w new old) = some v) ∧
    (∀ (v : ℚ) (old new : String),
      old ∈ Frame.volume_units → new ∈ Frame.volume_units →
      (Frame.convert_volume v old new).bind
        (fun w => Frame.convert_volume w new old) = some v) ∧
    (∀ (v : ℚ) (old new : String),
      old ∈ Frame.vapor_fraction_units → new ∈ Frame.vapor_fraction_units →
      Frame.convert_vapor_fraction
        (Frame.convert_vapor_fraction v old new) new old = v) := by
  refine ⟨?_, ?_, ?_, ?_, ?_, ?_⟩ <;> intro v old new ho hn
  · fin_cases ho <;> fin_cases hn <;>
      simp [Frame.convert_pressure, Frame.pressure_conversion_factors,
        List.lookup] <;> ring
  · fin_cases ho <;> fin_cases hn <;>
      simp [Frame.convert_temperature] <;> ring
  · fin_cases ho <;> fin_cases hn <;>
      simp [Frame.convert_entropy, Frame.entropy_conversion_factors,
        List.lookup] <;> ring
  · fin_cases ho <;> fin_cases hn <;>
      simp [Frame.convert_enthalpy, Frame.enthalpy_conversion_factors,
        List.lookup] <;> ring
  · fin_cases ho <;> fin_cases hn <;>
      simp [Frame.convert_volume, Frame.volume_conversion_factors,
        List.lookup] <;> ring
  · rfl

/-- Witness for C2: concrete round trips, one per quantity kind. -/
theorem unit_conversions_round_trip_witness :
    ((Frame.convert_pressure 2 "bar" "psi").bind
      (fun w => Frame.convert_pressure w "psi" "bar") = some 2) ∧
    (Frame.convert_temperature (Frame.convert_temperature 25 "°C" "°F") "°F" "°C" = 25) ∧
    ((Frame.convert_entropy 3 "kJ/kgK" "MJ/kgK").bind
      (fun w => Frame.convert_entropy w "MJ/kgK" "kJ/kgK") = some 3) ∧
    ((Frame.convert_enthalpy 7 "kJ/kg" "J/kg").bind
      (fun w => Frame.convert_enthalpy w "J/kg" "kJ/kg") = some 7) ∧
    ((Frame.convert_volume 5 "m^3/kg" "l/kg").bind
      (fun w => Frame.convert_volume w "l/kg" "m^3/kg") = some 5) ∧
    (Frame.convert_vapor_fraction
      (Frame.convert_vapor_fraction 1 "-" "%") "%" "-" = 1) :=
  ⟨unit_conversions_round_trip.1 2 "bar" "psi" (by decide) (by decide),
   unit_conversions_round_trip.2.1 25 "°C" "°F" (by decide) (by decide),
   unit_conversions_round_trip.2.2.1 3 "kJ/kgK" "MJ/kgK" (by decide) (by decide),
   unit_conversions_round_trip.2.2.2.1 7 "kJ/kg" "J/kg" (by decide) (by decide),
   unit_conversions_round_trip.2.2.2.2.1 5 "m^3/kg" "l/kg" (by decide) (by decide),
   unit_conversions_round_trip.2.2.2.2.2 1 "-" "%" (by decide) (by decide)⟩

/-- C3: temperature conversion is an affine function of its input for
every ordered pair of the three supported units (K, °C, °F); the
conversions are pairwise consistent (converting a→b then b→c equals
converting a→c directly, for all unit triples); and converting a unit
to itself is the identity. -/
theorem temperature_conversion_affine_and_consistent :
    (∀ (a b : String),
      a ∈ Frame.temperature_units → b ∈ Frame.temperature_units →
      ∃ m q : ℚ, ∀ v : ℚ, Frame.convert_temperature v a b = m * v + q) ∧
    (∀ (a b c : String),
      a ∈ Frame.temperature_units → b ∈ Frame.temperature_units →
      c ∈ Frame.temperature_units → ∀ v : ℚ,
      Frame.convert_temperature (Frame.convert_temperature v a b) b c =
        Frame.convert_temperature v a c) ∧
    (∀ (a : String), a ∈ Frame.temperature_units →
      ∀ v : ℚ, Frame.convert_temperature v a a = v) := by
  refine ⟨?_, ?_, ?_⟩
  · intro a b ha hb
    refine ⟨Frame.convert_temperature 1 a b - Frame.convert_temperature 0 a b,
      Frame.convert_temperature 0 a b, fun v => ?_⟩
    fin_cases ha <;> fin_cases hb <;>
      simp [Frame.convert_temperature] <;> ring
  · intro a b c ha hb hc v
    fin_cases ha <;> fin_cases hb <;> fin_cases hc <;>
      simp [Frame.convert_temperature] <;> ring
  · intro a _ v
    simp [Frame.convert_temperature]

/-- Witness for C3: instantiations of the three parts at K, °C and °F. -/
theorem temperature_conversion_affine_and_consistent_witness :
    (∃ m q : ℚ, ∀ v : ℚ, Frame.convert_temperature v "K" "°F" = m * v + q) ∧
    (∀ v : ℚ, Frame.convert_temperature (Frame.convert_temperature v "K" "°C") "°C" "°F" =
      Frame.convert_temperature v "K" "°F") ∧
    (∀ v : ℚ, Frame.convert_temperature v "°F" "°F" = v) :=
  ⟨temperature_conversion_affine_and_consistent.1 "K" "°F" (by decide) (by decide),
   temperature_conversion_affine_and_consistent.2.1 "K" "°C" "°F"
     (by decide) (by decide) (by decide),
   temperature_conversion_affine_and_consistent.2.2 "°F" (by decide)⟩

end ThermaGraph
